import Mathlib

/-!
Verification of the logging-configuration snippet `src/Logging/logs/logger.py`.

The snippet is a single call to the host logging facility:

  logging.basicConfig(
      filename='program.log',
      filemode='w',
      level=logging.DEBUG,
      format='%(asctime)s-%(name)s-%(levelname)s-%(message)s',
      datefmt='%Y-%m-%d %H:%M:%S'
      -- force=True is commented out in the source
  )

We embed the configuration record with the exact literals of the source, and
the semantics of the host facility (CPython's `logging` module) that the call
invokes: `basicConfig`'s guard on an already-configured root logger, the
file handler opened with mode 'w' (truncate), record emission through the
root logger with its threshold, percent-style record formatting and
`time.strftime` restricted to the directives the source's strings use.
-/

namespace LoggerSpec

/-! ## Severity levels (numeric values of the host facility) -/

def DEBUG : Nat := 10
def INFO : Nat := 20
def WARNING : Nat := 30
def ERROR : Nat := 40
def CRITICAL : Nat := 50

/-- `logging.getLevelName` restricted to numeric inputs: the five standard
levels map to their upper-case names, any other number `n` to `"Level n"`. -/
def getLevelName (n : Nat) : String :=
  if n = 50 then "CRITICAL"
  else if n = 40 then "ERROR"
  else if n = 30 then "WARNING"
  else if n = 20 then "INFO"
  else if n = 10 then "DEBUG"
  else "Level " ++ toString n

/-! ## Timestamps: `time.strftime` for the directives used by the source -/

/-- A broken-down local time, as `time.localtime` provides to the formatter. -/
structure DateTime where
  year : Nat
  month : Nat
  day : Nat
  hour : Nat
  minute : Nat
  second : Nat
deriving DecidableEq, Repr

/-- The decimal digit character for `n % 10`. -/
def digitChar (n : Nat) : Char := Char.ofNat (48 + n % 10)

/-- `%02d`: two-digit zero-padded decimal (for field values below 100,
the range the time provider produces for month/day/hour/minute/second). -/
def pad2 (n : Nat) : String := String.mk [digitChar (n / 10), digitChar n]

/-- `%04d`: four-digit zero-padded decimal (for years below 10000). -/
def pad4 (n : Nat) : String :=
  String.mk [digitChar (n / 1000), digitChar (n / 100), digitChar (n / 10), digitChar n]

/-- `time.strftime` over the characters of the format string, restricted to
the directives appearing in the source's `datefmt` (`%Y %m %d %H %M %S`);
other characters pass through unchanged. -/
def strftimeChars (t : DateTime) : List Char → List Char
  | [] => []
  | '%' :: c :: rest =>
    (if c = 'Y' then (pad4 t.year).toList
     else if c = 'm' then (pad2 t.month).toList
     else if c = 'd' then (pad2 t.day).toList
     else if c = 'H' then (pad2 t.hour).toList
     else if c = 'M' then (pad2 t.minute).toList
     else if c = 'S' then (pad2 t.second).toList
     else if c = '%' then ['%']
     else ['%', c]) ++ strftimeChars t rest
  | c :: rest => c :: strftimeChars t rest

def strftime (fmt : String) (t : DateTime) : String :=
  String.mk (strftimeChars t fmt.toList)

/-! ## Percent-style record formatting

CPython's `%`-style `Formatter` applies `format % record.__dict__`: the
format string is scanned once, each `%(key)s` directive is replaced by the
record's field value, and substituted values are never rescanned. We embed
that single scan, restricted to the string (`s`) conversions the source's
format string uses. -/

mutual

def pctFormat (lookup : String → String) : List Char → List Char
  | [] => []
  | '%' :: rest => pctAfterPercent lookup rest
  | c :: rest => c :: pctFormat lookup rest
termination_by cs => cs.length

def pctAfterPercent (lookup : String → String) : List Char → List Char
  | [] => ['%']
  | '(' :: rest => pctKey lookup [] rest
  | '%' :: rest => '%' :: pctFormat lookup rest
  | c :: rest => '%' :: c :: pctFormat lookup rest
termination_by cs => cs.length

def pctKey (lookup : String → String) (acc : List Char) : List Char → List Char
  | [] => []
  | ')' :: 's' :: rest => (lookup (String.mk acc)).toList ++ pctFormat lookup rest
  | ')' :: rest => (lookup (String.mk acc)).toList ++ pctFormat lookup rest
  | c :: rest => pctKey lookup (acc ++ [c]) rest
termination_by cs => cs.length

end

/-! ## The data model: configuration, file system, logging state -/

/-- The keyword arguments of the `logging.basicConfig` call. -/
structure Config where
  filename : String
  filemode : String
  level : Nat
  fmt : String
  datefmt : String
  force : Bool
deriving DecidableEq, Repr

/-- The exact configuration literals of `src/Logging/logs/logger.py`
(`force=True` is commented out in the source, hence `force := false`). -/
def loggerConfig : Config :=
  { filename := "program.log"
  , filemode := "w"
  , level := DEBUG
  , fmt := "%(asctime)s-%(name)s-%(levelname)s-%(message)s"
  , datefmt := "%Y-%m-%d %H:%M:%S"
  , force := false }

/-- The spec's single error kind for a failed `basicConfig`:
the sink path cannot be opened for writing. -/
inductive ConfigurationError where
  | cannotOpenSink : String → ConfigurationError
deriving DecidableEq, Repr

/-- A file system: `contents p = some c` means the file at path `p` exists
with contents `c`; `writable p` says whether opening `p` for writing
succeeds (directory exists, permission granted). -/
structure FS where
  contents : String → Option String
  writable : String → Bool

/-- A file handler installed on the root logger: its sink path and the
format strings of its formatter. -/
structure Handler where
  path : String
  fmt : String
  datefmt : String
deriving DecidableEq, Repr

/-- The root logger: its threshold level and its handlers. -/
structure RootLogger where
  level : Nat
  handlers : List Handler
deriving DecidableEq, Repr

/-- The process-wide logging state. -/
structure LoggingState where
  root : RootLogger
deriving DecidableEq, Repr

/-- The state before any configuration: the root logger has level WARNING
and no handlers. -/
def freshState : LoggingState := { root := { level := WARNING, handlers := [] } }

/-- Open a file for writing with the given mode: fails when the path is not
writable; mode `"w"` truncates (or creates empty), any other mode (`"a"`)
creates the file if absent and keeps existing contents. -/
def openFile (fs : FS) (path : String) (mode : String) :
    Except ConfigurationError FS :=
  if fs.writable path then
    if mode = "w" then
      Except.ok { fs with contents := fun p => if p = path then some "" else fs.contents p }
    else
      Except.ok { fs with contents := fun p =>
        if p = path then some ((fs.contents path).getD "") else fs.contents p }
  else
    Except.error (ConfigurationError.cannotOpenSink path)

/-- `logging.basicConfig(**cfg)`: if `force` is set the root logger's
handlers are removed first; then, only when the root logger has no handlers,
a file handler is created (opening the sink eagerly, which may fail) with
the configured formatter, and the root level is set. When handlers are
already present the call does nothing. Returns the outcome and the file
system after the call. -/
def basicConfig (cfg : Config) (st : LoggingState) (fs : FS) :
    (Except ConfigurationError LoggingState) × FS :=
  let st := if cfg.force then { st with root := { st.root with handlers := [] } } else st
  if st.root.handlers.isEmpty then
    match openFile fs cfg.filename cfg.filemode with
    | Except.error e => (Except.error e, fs)
    | Except.ok fs' =>
        (Except.ok { root := { level := cfg.level
                             , handlers := [{ path := cfg.filename
                                            , fmt := cfg.fmt
                                            , datefmt := cfg.datefmt }] } }, fs')
  else (Except.ok st, fs)

/-- Running `src/Logging/logs/logger.py`: the one `basicConfig` call with
the source's literal configuration. -/
def initLogging (st : LoggingState) (fs : FS) :
    (Except ConfigurationError LoggingState) × FS :=
  basicConfig loggerConfig st fs

/-- The logging state `initLogging` establishes from a fresh process. -/
def configuredState : LoggingState :=
  { root := { level := DEBUG
            , handlers := [{ path := "program.log"
                           , fmt := loggerConfig.fmt
                           , datefmt := loggerConfig.datefmt }] } }

/-! ## Record emission -/

/-- A log record: emitting logger's name, numeric severity, message text and
creation time. -/
structure Record where
  name : String
  levelno : Nat
  msg : String
  created : DateTime
deriving DecidableEq, Repr

/-- The record fields the source's format string interpolates. -/
def recordField (h : Handler) (r : Record) (key : String) : String :=
  if key = "asctime" then strftime h.datefmt r.created
  else if key = "name" then r.name
  else if key = "levelname" then getLevelName r.levelno
  else if key = "message" then r.msg
  else ""

/-- `Formatter.format(record)`: the percent-style substitution of the
record's fields into the handler's format string. -/
def formatRecord (h : Handler) (r : Record) : String :=
  String.mk (pctFormat (recordField h r) h.fmt.toList)

/-- `FileHandler.emit(record)`: append the formatted record plus the
terminator `"\n"` to the handler's file. -/
def handlerEmit (h : Handler) (r : Record) (fs : FS) : FS :=
  { fs with contents := fun p =>
      if p = h.path then some (((fs.contents h.path).getD "") ++ formatRecord h r ++ "\n")
      else fs.contents p }

/-- `Logger.handle` on the root logger: when the record's severity reaches
the root threshold, every handler emits it; otherwise nothing is written. -/
def logRecord (st : LoggingState) (r : Record) (fs : FS) : FS :=
  if st.root.level ≤ r.levelno then
    st.root.handlers.foldl (fun acc h => handlerEmit h r acc) fs
  else fs

/-- The root logger's name in the host facility: the module-level helpers
`logging.debug` / `logging.info` / ... emit through the logger named `"root"`. -/
def rootName : String := "root"

/-- `logging.log(lvl, msg)` and the level-specific module helpers: emit a
record through the root logger, so the record's name is `rootName`. -/
def rootLog (st : LoggingState) (lvl : Nat) (msg : String) (t : DateTime) (fs : FS) : FS :=
  logRecord st { name := rootName, levelno := lvl, msg := msg, created := t } fs

/-- `logging.debug(msg)`: emit through the root logger at level DEBUG. -/
def rootDebug (st : LoggingState) (msg : String) (t : DateTime) (fs : FS) : FS :=
  rootLog st DEBUG msg t fs

/-- The file handler that `initLogging` installs. -/
def theHandler : Handler :=
  { path := "program.log", fmt := loggerConfig.fmt, datefmt := loggerConfig.datefmt }

/-! ## The timestamp pattern `YYYY-MM-DD HH:MM:SS` -/

/-- Per-position character checks for the pattern `YYYY-MM-DD HH:MM:SS`:
nineteen characters, digits in the date and time positions, separated by
`-`, a space and `:`, with no sub-second component. -/
def timestampShape : List (Char → Bool) :=
  [Char.isDigit, Char.isDigit, Char.isDigit, Char.isDigit, fun c => c == '-',
   Char.isDigit, Char.isDigit, fun c => c == '-',
   Char.isDigit, Char.isDigit, fun c => c == ' ',
   Char.isDigit, Char.isDigit, fun c => c == ':',
   Char.isDigit, Char.isDigit, fun c => c == ':',
   Char.isDigit, Char.isDigit]

/-- A string matches a list of per-position checks exactly when it has the
same length and every character passes its check. -/
def matchShape : List (Char → Bool) → List Char → Bool
  | [], [] => true
  | f :: fs, c :: cs => f c && matchShape fs cs
  | _, _ => false

def matchesTimestampPattern (s : String) : Bool :=
  matchShape timestampShape s.toList

/-! ## Operations after configuration (for the write-once invariant) -/

/-- An operation a process can perform after start-up: emit a record, or run
the configuration snippet again. -/
inductive Op where
  | emit : Record → Op
  | reinit : Op

/-- Apply one operation to the logging state and file system. -/
def applyOp : LoggingState × FS → Op → LoggingState × FS
  | (st, fs), Op.emit r => (st, logRecord st r fs)
  | (st, fs), Op.reinit =>
      match initLogging st fs with
      | (Except.ok st', fs') => (st', fs')
      | (Except.error _, fs') => (st, fs')

/-! ## Sample file systems for concrete runs -/

/-- A writable file system where a prior run left text in `program.log`. -/
def fsPrior : FS :=
  { contents := fun p => if p = "program.log" then some "prior run text" else none
  , writable := fun _ => true }

/-- A file system where `program.log` does not exist and cannot be opened
for writing. -/
def fsBlocked : FS :=
  { contents := fun _ => none
  , writable := fun _ => false }

/-! ## Helper lemmas -/

/-- Substituting the record fields into the source's format string yields the
four fields joined by `-`. -/
theorem formatRecord_theHandler (r : Record) :
    formatRecord theHandler r =
      strftime loggerConfig.datefmt r.created ++ "-" ++ r.name ++ "-"
        ++ getLevelName r.levelno ++ "-" ++ r.msg := by
  simp [formatRecord, theHandler, loggerConfig, pctFormat, pctAfterPercent, pctKey,
    recordField, String.toList]
  apply String.ext
  simp [String.data_append]

/-- A successful run of the snippet from a fresh process yields the
configured state and truncates the sink. -/
theorem initLogging_fresh_ok (fs : FS) (st : LoggingState) (fs1 : FS)
    (h : initLogging freshState fs = (Except.ok st, fs1)) :
    st = configuredState ∧ fs1.contents "program.log" = some "" := by
  by_cases hw : fs.writable "program.log" = true
  · simp [initLogging, basicConfig, loggerConfig, freshState, openFile, hw,
      Prod.ext_iff] at h
    obtain ⟨h1, h2⟩ := h
    refine ⟨h1.symm, ?_⟩
    subst h2
    simp
  · simp [initLogging, basicConfig, loggerConfig, freshState, openFile,
      Bool.not_eq_true] at hw
    simp [initLogging, basicConfig, loggerConfig, freshState, openFile, hw,
      Prod.ext_iff] at h

theorem digitChar_isDigit (n : Nat) : (digitChar n).isDigit = true := by
  unfold digitChar
  have h : n % 10 < 10 := Nat.mod_lt _ (by norm_num)
  set k := n % 10 with hk
  interval_cases k <;> decide

theorem newline_ne_digitChar (n : Nat) : '\n' ≠ digitChar n := by
  intro h
  have hd := digitChar_isDigit n
  rw [← h] at hd
  simp at hd

/-- No character of a formatted timestamp is a newline. -/
theorem newline_not_mem_strftime (t : DateTime) :
    '\n' ∉ (strftime loggerConfig.datefmt t).toList := by
  simp [strftime, loggerConfig, strftimeChars, pad4, pad2, String.toList,
    newline_ne_digitChar]

/-- The names of the five standard levels contain no newline. -/
theorem newline_not_mem_getLevelName (lvl : Nat)
    (h : lvl ∈ [DEBUG, INFO, WARNING, ERROR, CRITICAL]) :
    '\n' ∉ (getLevelName lvl).toList := by
  simp [DEBUG, INFO, WARNING, ERROR, CRITICAL] at h
  rcases h with h | h | h | h | h <;> subst h <;> decide

theorem newline_not_mem_append (a b : String)
    (ha : '\n' ∉ a.toList) (hb : '\n' ∉ b.toList) :
    '\n' ∉ (a ++ b).toList := by
  simp only [String.toList, String.data_append, List.mem_append, not_or] at *
  exact ⟨ha, hb⟩

/-- Emitting a record at or above the threshold through the configured state
appends the formatted record plus the terminator to the sink. -/
theorem logRecord_configured (r : Record) (fs : FS) (old : String)
    (hlvl : DEBUG ≤ r.levelno) (hold : fs.contents "program.log" = some old) :
    (logRecord configuredState r fs).contents "program.log" =
      some (old ++ formatRecord theHandler r ++ "\n") := by
  simp [logRecord, configuredState, handlerEmit, theHandler, hlvl, hold]

/-- Any operation applied to a state whose root logger is the configured one
leaves the logging state unchanged. -/
theorem applyOp_preserves (p : LoggingState × FS) (op : Op)
    (h : p.1 = configuredState) : (applyOp p op).1 = configuredState := by
  obtain ⟨st, fs⟩ := p
  simp at h
  subst h
  cases op with
  | emit r => simp [applyOp]
  | reinit => simp [applyOp, initLogging, basicConfig, loggerConfig, configuredState]

theorem foldl_applyOp_preserves (ops : List Op) :
    ∀ p : LoggingState × FS, p.1 = configuredState →
      (ops.foldl applyOp p).1 = configuredState := by
  induction ops with
  | nil => intro p h; simpa using h
  | cons op ops ih =>
      intro p h
      exact ih _ (applyOp_preserves p op h)

/-- A formatted record contains no newline when neither the logger name nor
the message does and the level is one of the five standard levels. -/
theorem newline_not_mem_formatted (r : Record)
    (hname : '\n' ∉ r.name.toList) (hmsg : '\n' ∉ r.msg.toList)
    (hstd : r.levelno ∈ [DEBUG, INFO, WARNING, ERROR, CRITICAL]) :
    '\n' ∉ (formatRecord theHandler r).toList := by
  rw [formatRecord_theHandler r]
  have hdash : '\n' ∉ ("-" : String).toList := by decide
  exact newline_not_mem_append _ _
    (newline_not_mem_append _ _
      (newline_not_mem_append _ _
        (newline_not_mem_append _ _
          (newline_not_mem_append _ _
            (newline_not_mem_append _ _ (newline_not_mem_strftime r.created) hdash)
            hname)
          hdash)
        (newline_not_mem_getLevelName r.levelno hstd))
      hdash)
    hmsg

/-! ## The claims -/

/-- C1: after initialization, emitting a record with severity at or above the
minimum severity (Debug) appends exactly one line to the sink, and that line
is the timestamp, logger name, level name and message joined by the literal
character `-`. -/
theorem emit_appends_one_formatted_line
    (fs : FS) (st : LoggingState) (fs1 : FS)
    (hinit : initLogging freshState fs = (Except.ok st, fs1))
    (r : Record) (old : String)
    (hlvl : DEBUG ≤ r.levelno)
    (hold : fs1.contents "program.log" = some old)
    (hname : '\n' ∉ r.name.toList) (hmsg : '\n' ∉ r.msg.toList)
    (hstd : r.levelno ∈ [DEBUG, INFO, WARNING, ERROR, CRITICAL]) :
    ∃ line : String,
      (logRecord st r fs1).contents "program.log" = some (old ++ line ++ "\n") ∧
      line = strftime loggerConfig.datefmt r.created ++ "-" ++ r.name ++ "-"
             ++ getLevelName r.levelno ++ "-" ++ r.msg ∧
      '\n' ∉ line.toList := by
  obtain ⟨hst, -⟩ := initLogging_fresh_ok fs st fs1 hinit
  subst hst
  exact ⟨formatRecord theHandler r, logRecord_configured r fs1 old hlvl hold,
    formatRecord_theHandler r, newline_not_mem_formatted r hname hmsg hstd⟩

theorem emit_appends_one_formatted_line_witness :
    ∃ line : String,
      (logRecord configuredState ⟨"app", DEBUG, "started", ⟨2024, 1, 1, 0, 0, 0⟩⟩
          (initLogging freshState fsPrior).2).contents "program.log" =
        some ("" ++ line ++ "\n") ∧
      line = strftime loggerConfig.datefmt ⟨2024, 1, 1, 0, 0, 0⟩ ++ "-" ++ "app" ++ "-"
             ++ getLevelName DEBUG ++ "-" ++ "started" ∧
      '\n' ∉ line.toList :=
  emit_appends_one_formatted_line fsPrior configuredState
    (initLogging freshState fsPrior).2 rfl
    ⟨"app", DEBUG, "started", ⟨2024, 1, 1, 0, 0, 0⟩⟩ ""
    (by decide) rfl (by decide) (by decide) (by decide)

/-- C2: the sink is the file `program.log` opened in truncate mode `w`, so a
run of the snippet fully erases whatever a prior run left in the file. -/
theorem initLogging_truncates_prior_log
    (fs : FS) (prior : String)
    (hw : fs.writable "program.log" = true)
    (_hprior : fs.contents "program.log" = some prior) :
    loggerConfig.filename = "program.log" ∧ loggerConfig.filemode = "w" ∧
    (initLogging freshState fs).1 = Except.ok configuredState ∧
    (initLogging freshState fs).2.contents "program.log" = some "" := by
  refine ⟨rfl, rfl, ?_, ?_⟩ <;>
    simp [initLogging, basicConfig, loggerConfig, freshState, openFile, hw, configuredState]

theorem initLogging_truncates_prior_log_witness :
    loggerConfig.filename = "program.log" ∧ loggerConfig.filemode = "w" ∧
    (initLogging freshState fsPrior).1 = Except.ok configuredState ∧
    (initLogging freshState fsPrior).2.contents "program.log" = some "" :=
  initLogging_truncates_prior_log fsPrior "prior run text" rfl rfl

/-- C3: the minimum severity is Debug, the least of the five ordered standard
levels, so records at all five standard levels pass the threshold and are
written; a record with severity strictly below the threshold appends
nothing. -/
theorem min_severity_debug_all_levels_pass :
    loggerConfig.level = DEBUG ∧
    (∀ lvl ∈ [DEBUG, INFO, WARNING, ERROR, CRITICAL], loggerConfig.level ≤ lvl) ∧
    (∀ (r : Record) (fs : FS), r.levelno < loggerConfig.level →
      logRecord configuredState r fs = fs) ∧
    (∀ (r : Record) (fs : FS) (old : String), loggerConfig.level ≤ r.levelno →
      fs.contents "program.log" = some old →
      (logRecord configuredState r fs).contents "program.log" =
        some (old ++ formatRecord theHandler r ++ "\n")) := by
  refine ⟨rfl, by decide, ?_, ?_⟩
  · intro r fs hlt
    simp only [loggerConfig] at hlt
    unfold logRecord
    rw [if_neg]
    simp only [configuredState, DEBUG] at hlt ⊢
    omega
  · intro r fs old hle hold
    exact logRecord_configured r fs old (by simpa [loggerConfig] using hle) hold

theorem min_severity_debug_all_levels_pass_witness :
    logRecord configuredState ⟨"app", 5, "low", ⟨2024, 1, 1, 0, 0, 0⟩⟩ fsPrior = fsPrior :=
  min_severity_debug_all_levels_pass.2.2.1
    ⟨"app", 5, "low", ⟨2024, 1, 1, 0, 0, 0⟩⟩ fsPrior (by decide)

/-- C4: whenever the snippet's run succeeds from a fresh process, the sink
file exists and is empty immediately afterwards, before any record is
emitted: the sink is created and truncated eagerly at initialization. -/
theorem sink_empty_after_init
    (fs : FS) (st : LoggingState) (fs1 : FS)
    (h : initLogging freshState fs = (Except.ok st, fs1)) :
    fs1.contents "program.log" = some "" :=
  (initLogging_fresh_ok fs st fs1 h).2

theorem sink_empty_after_init_witness :
    (initLogging freshState fsPrior).2.contents "program.log" = some "" :=
  sink_empty_after_init fsPrior configuredState (initLogging freshState fsPrior).2 rfl

/-- C5: when the sink path cannot be opened for writing, the run fails
synchronously with the single ConfigurationError kind naming the sink, and
no file is created. -/
theorem init_error_when_sink_unwritable
    (fs : FS)
    (hw : fs.writable "program.log" = false)
    (habsent : fs.contents "program.log" = none) :
    (initLogging freshState fs).1 =
      Except.error (ConfigurationError.cannotOpenSink "program.log") ∧
    (initLogging freshState fs).2.contents "program.log" = none := by
  constructor <;>
    simp [initLogging, basicConfig, loggerConfig, freshState, openFile, hw, habsent]

theorem init_error_when_sink_unwritable_witness :
    (initLogging freshState fsBlocked).1 =
      Except.error (ConfigurationError.cannotOpenSink "program.log") ∧
    (initLogging freshState fsBlocked).2.contents "program.log" = none :=
  init_error_when_sink_unwritable fsBlocked rfl rfl

/-- C6: running the snippet a second time in the same process leaves the
state established by the first run — sink path, record format, timestamp
format and severity threshold — and the file system unchanged. -/
theorem init_idempotent_second_call
    (fs : FS) (st1 : LoggingState) (fs1 : FS)
    (h : initLogging freshState fs = (Except.ok st1, fs1)) :
    initLogging st1 fs1 = (Except.ok st1, fs1) := by
  obtain ⟨hst, -⟩ := initLogging_fresh_ok fs st1 fs1 h
  subst hst
  simp [initLogging, basicConfig, loggerConfig, configuredState]

theorem init_idempotent_second_call_witness :
    initLogging configuredState (initLogging freshState fsPrior).2 =
      (Except.ok configuredState, (initLogging freshState fsPrior).2) :=
  init_idempotent_second_call fsPrior configuredState
    (initLogging freshState fsPrior).2 rfl

/-- C7: every timestamp the configured formatter writes follows the pattern
YYYY-MM-DD HH:MM:SS at second resolution, with no sub-second component, and
it is the first `-`-joined field of the written record. -/
theorem timestamp_second_resolution_pattern
    (r : Record)
    (_hy : r.created.year < 10000) (_hmo : r.created.month < 100)
    (_hd : r.created.day < 100) (_hh : r.created.hour < 100)
    (_hmi : r.created.minute < 100) (_hs : r.created.second < 100) :
    matchesTimestampPattern (strftime theHandler.datefmt r.created) = true ∧
    formatRecord theHandler r =
      strftime theHandler.datefmt r.created ++ "-" ++ r.name ++ "-"
        ++ getLevelName r.levelno ++ "-" ++ r.msg := by
  refine ⟨?_, formatRecord_theHandler r⟩
  simp [matchesTimestampPattern, strftime, theHandler, loggerConfig, strftimeChars,
    pad4, pad2, timestampShape, matchShape, String.toList, digitChar_isDigit]

theorem timestamp_second_resolution_pattern_witness :
    matchesTimestampPattern
      (strftime theHandler.datefmt ⟨2024, 1, 1, 0, 0, 0⟩) = true ∧
    formatRecord theHandler ⟨"app", DEBUG, "started", ⟨2024, 1, 1, 0, 0, 0⟩⟩ =
      strftime theHandler.datefmt ⟨2024, 1, 1, 0, 0, 0⟩ ++ "-" ++ "app" ++ "-"
        ++ getLevelName DEBUG ++ "-" ++ "started" :=
  timestamp_second_resolution_pattern ⟨"app", DEBUG, "started", ⟨2024, 1, 1, 0, 0, 0⟩⟩
    (by decide) (by decide) (by decide) (by decide) (by decide) (by decide)

/-- C8: the configuration established at start-up is write-once: no sequence
of later operations (record emissions or re-running the snippet) changes the
logging state in effect. -/
theorem config_write_once_invariant
    (fs : FS) (st1 : LoggingState) (fs1 : FS)
    (h : initLogging freshState fs = (Except.ok st1, fs1)) (ops : List Op) :
    (ops.foldl applyOp (st1, fs1)).1 = st1 := by
  obtain ⟨hst, -⟩ := initLogging_fresh_ok fs st1 fs1 h
  subst hst
  exact foldl_applyOp_preserves ops (configuredState, fs1) rfl

theorem config_write_once_invariant_witness :
    (([Op.emit ⟨"app", DEBUG, "x", ⟨2024, 1, 1, 0, 0, 0⟩⟩, Op.reinit].foldl applyOp
        (configuredState, (initLogging freshState fsPrior).2))).1 = configuredState :=
  config_write_once_invariant fsPrior configuredState
    (initLogging freshState fsPrior).2 rfl
    [Op.emit ⟨"app", DEBUG, "x", ⟨2024, 1, 1, 0, 0, 0⟩⟩, Op.reinit]

/-- C9: with the force override commented out, running the snippet again
while a configuration is already in effect is a silent no-op: no error is
raised, the state is unchanged, and the sink file is neither reopened nor
re-truncated. -/
theorem reinit_silent_noop (st : LoggingState) (fs : FS)
    (hconf : st.root.handlers ≠ []) :
    initLogging st fs = (Except.ok st, fs) := by
  simp [initLogging, basicConfig, loggerConfig, List.isEmpty_iff, hconf]

theorem reinit_silent_noop_witness :
    initLogging configuredState fsPrior = (Except.ok configuredState, fsPrior) :=
  reinit_silent_noop configuredState fsPrior (by decide)

/-- C10: a record emitted through the root logger is written with the
literal logger name "root" as the second `-`-joined field of the line. -/
theorem root_logger_name_in_line
    (fs : FS) (old : String) (lvl : Nat) (msg : String) (t : DateTime)
    (hlvl : DEBUG ≤ lvl)
    (hold : fs.contents "program.log" = some old) :
    rootName = "root" ∧
    (rootLog configuredState lvl msg t fs).contents "program.log" =
      some (old ++ (strftime loggerConfig.datefmt t ++ "-" ++ "root" ++ "-"
        ++ getLevelName lvl ++ "-" ++ msg) ++ "\n") := by
  refine ⟨rfl, ?_⟩
  unfold rootLog
  rw [logRecord_configured _ fs old hlvl hold, formatRecord_theHandler]
  simp [rootName]

theorem root_logger_name_in_line_witness :
    rootName = "root" ∧
    (rootLog configuredState DEBUG "started" ⟨2024, 1, 1, 0, 0, 0⟩
        (initLogging freshState fsPrior).2).contents "program.log" =
      some ("" ++ (strftime loggerConfig.datefmt ⟨2024, 1, 1, 0, 0, 0⟩ ++ "-" ++ "root" ++ "-"
        ++ getLevelName DEBUG ++ "-" ++ "started") ++ "\n") :=
  root_logger_name_in_line (initLogging freshState fsPrior).2 "" DEBUG "started"
    ⟨2024, 1, 1, 0, 0, 0⟩ (by decide) rfl

end LoggerSpec
